import Mathlib

/-!
Shallow embedding of the ETL pipeline core of the DailyScript repository
(`Python_Scripts/data-operations/etl_pipeline.py`) and of the chunked table
copy of `Python_Scripts/data-operations/db_migration.py`, with theorems
checking the natural-language specification against the code.

Modelling conventions:
* A pandas DataFrame is modelled as a `Batch := List Row`, a row being an
  association list from column name to scalar `Value`.  A cell absent from a
  row reads as `Value.null` (pandas NaN).  Numbers are modelled as integers.
* Calls into third-party libraries whose behaviour the repository merely
  consumes (`pd.to_datetime`, `Series.astype`, regex matching via
  `Series.str.match`, `groupby/agg`, `pivot_table`, and the `exec`-based
  custom hooks) are abstracted as fields of an `ExtOps` record passed to the
  embedded functions; the repository's own control flow is embedded concretely.
* Python exceptions are modelled with `Except String`; a fallible call that
  the code wraps in try/except is embedded as the corresponding `Except`
  value and the handler as the `.error` branch.
* Pandas NaN comparison semantics are kept: `==`, `<`, `>`, `<=`, `>=`
  against a null (or type-mismatched) operand are `false`, `!=` is the
  negation of `==`.
-/

/-- Scalar cell values moved through the pipeline (pandas scalars; numbers
modelled as integers, NaN as `null`). -/
inductive Value
  | null
  | int (n : Int)
  | str (s : String)
  | bool (b : Bool)
deriving DecidableEq, Repr

/-- A row: association list from column name to value (one DataFrame record). -/
abbrev Row := List (String × Value)

/-- A Batch: the in-memory unit of data moved through the pipeline
(a pandas DataFrame as an ordered list of rows). -/
abbrev Batch := List Row

/-- Cell lookup: the value of column `c` in row `r`; a missing cell is NaN. -/
def cellVal (r : Row) (c : String) : Value :=
  match List.lookup c r with
  | some v => v
  | none => Value.null

/-- The column names of a row. -/
def rowCols (r : Row) : List String := r.map Prod.fst

/-- The column set of a Batch (`df.columns`): every key appearing in any row. -/
def batchCols (df : Batch) : List String := (df.map rowCols).flatten

/-- `df.empty`: true if the frame has no rows or no columns. -/
def batchEmpty (df : Batch) : Bool :=
  match df with
  | [] => true
  | _ => (batchCols df).isEmpty

/-- Write value `v` into column `c` of row `r`, appending the column if the
row did not have it (pandas assigns a whole column at once). -/
def setCell (r : Row) (c : String) (v : Value) : Row :=
  if r.any (fun p => p.1 = c) then
    r.map (fun p => if p.1 = c then (p.1, v) else p)
  else
    r ++ [(c, v)]

/-- External library surface consumed (not reimplemented) by the pipeline:
pandas/NumPy conversions, regex matching, reshaping, and the `exec`-based
custom hooks.  `none` models a raised exception. -/
structure ExtOps where
  toDatetime : Value → Option Value
  astype : String → Value → Option Value
  strMatch : String → String → Bool
  aggregate : List String → List (String × String) → Batch → Batch
  pivotTable : List String → String → List String → Batch → Batch
  execTransform : String → Batch → Batch
  execCheck : String → Batch → Except String Bool

/-- A trivial instantiation of the external surface, used to evaluate the
embedding on concrete inputs. -/
def extId : ExtOps where
  toDatetime := fun _ => none
  astype := fun _ _ => none
  strMatch := fun _ _ => false
  aggregate := fun _ _ df => df
  pivotTable := fun _ _ _ df => df
  execTransform := fun _ df => df
  execCheck := fun _ _ => Except.ok true

/-! ## Transformer (`DataTransformer`) -/

/-- `DataTransformer._drop_columns`: `df.drop(columns=columns, errors='ignore')`
removes the listed columns from every row; absent columns are ignored. -/
def dropColumns (df : Batch) (columns : List String) : Batch :=
  df.map (fun r => r.filter (fun p => decide (p.1 ∉ columns)))

/-- Apply a rename mapping to one column name. -/
def renameKey (mapping : List (String × String)) (k : String) : String :=
  match List.lookup k mapping with
  | some k2 => k2
  | none => k

/-- `DataTransformer._rename_columns`: `df.rename(columns=mapping)`. -/
def renameColumns (df : Batch) (mapping : List (String × String)) : Batch :=
  df.map (fun r => r.map (fun p => (renameKey mapping p.1, p.2)))

/-- The right-hand side of a filter condition: a scalar for the comparison
operators, a list for `in` / `not_in`. -/
inductive CondValue
  | scalar (v : Value)
  | vlist (vs : List Value)
deriving DecidableEq, Repr

/-- One filter-rows condition: column, operator (the configuration string),
comparison value. -/
structure Condition where
  column : String
  op : String
  value : CondValue
deriving DecidableEq, Repr

/-- Elementwise pandas `==`: false when either side is NaN or the types
mismatch. -/
def valueEq : Value → Value → Bool
  | Value.int a, Value.int b => a = b
  | Value.str a, Value.str b => a = b
  | Value.bool a, Value.bool b => a = b
  | _, _ => false

/-- Elementwise pandas `<` (false on NaN or mismatched kinds). -/
def valueLt : Value → Value → Bool
  | Value.int a, Value.int b => a < b
  | Value.str a, Value.str b => a < b
  | Value.bool a, Value.bool b => !a && b
  | _, _ => false

/-- Elementwise pandas `<=` (false on NaN or mismatched kinds). -/
def valueLe (a b : Value) : Bool := valueLt a b || valueEq a b

/-- Elementwise `Series.isin`: structural membership in the given list. -/
def valueIn (v : Value) (cv : CondValue) : Bool :=
  match cv with
  | CondValue.vlist vs => vs.contains v
  | CondValue.scalar _ => false

/-- Scalar payload of a condition value (the comparison operators use the
configured value as a scalar). -/
def condScalar (cv : CondValue) : Value :=
  match cv with
  | CondValue.scalar v => v
  | CondValue.vlist _ => Value.null

/-- The per-row predicate of one filter condition, mirroring the operator
dispatch of `DataTransformer._filter_rows`; an operator outside the
recognized set constrains nothing (the source's if/elif chain has no else
branch, so such a condition leaves the frame unchanged). -/
def condPred (c : Condition) (r : Row) : Bool :=
  let cell := cellVal r c.column
  if c.op = "==" then valueEq cell (condScalar c.value)
  else if c.op = "!=" then !(valueEq cell (condScalar c.value))
  else if c.op = ">" then valueLt (condScalar c.value) cell
  else if c.op = "<" then valueLt cell (condScalar c.value)
  else if c.op = ">=" then valueLe (condScalar c.value) cell
  else if c.op = "<=" then valueLe cell (condScalar c.value)
  else if c.op = "in" then valueIn cell c.value
  else if c.op = "not_in" then !(valueIn cell c.value)
  else true

/-- One pass of the `for condition in conditions` loop body of
`DataTransformer._filter_rows`: `df = df[mask]` for the operator's mask. -/
def applyCondition (df : Batch) (c : Condition) : Batch :=
  if c.op = "==" then df.filter (fun r => valueEq (cellVal r c.column) (condScalar c.value))
  else if c.op = "!=" then df.filter (fun r => !(valueEq (cellVal r c.column) (condScalar c.value)))
  else if c.op = ">" then df.filter (fun r => valueLt (condScalar c.value) (cellVal r c.column))
  else if c.op = "<" then df.filter (fun r => valueLt (cellVal r c.column) (condScalar c.value))
  else if c.op = ">=" then df.filter (fun r => valueLe (condScalar c.value) (cellVal r c.column))
  else if c.op = "<=" then df.filter (fun r => valueLe (cellVal r c.column) (condScalar c.value))
  else if c.op = "in" then df.filter (fun r => valueIn (cellVal r c.column) c.value)
  else if c.op = "not_in" then df.filter (fun r => !(valueIn (cellVal r c.column) c.value))
  else df

/-- `DataTransformer._filter_rows`: conditions applied in order, each
narrowing the frame. -/
def filterRows (df : Batch) (conditions : List Condition) : Batch :=
  conditions.foldl applyCondition df

/-- The operator strings recognized by `_filter_rows`. -/
def recognizedOps : List String :=
  ["==", "!=", ">", "<", ">=", "<=", "in", "not_in"]

/-- Decimal digit value of a character, if it is a digit. -/
def charDigit (c : Char) : Option Nat :=
  let n := c.toNat
  if 48 ≤ n ∧ n ≤ 57 then some (n - 48) else none

/-- Accumulate a decimal number over characters; fails on a non-digit. -/
def parseDigitsAux : List Char → Nat → Option Nat
  | [], acc => some acc
  | c :: cs, acc =>
      match charDigit c with
      | some d => parseDigitsAux cs (acc * 10 + d)
      | none => none

/-- Parse a non-empty all-digit character list as a number. -/
def parseDigits (l : List Char) : Option Nat :=
  match l with
  | [] => none
  | _ => parseDigitsAux l 0

/-- Parse a (possibly negated) decimal integer from a string; `none` on any
other content. -/
def strToInt (s : String) : Option Int :=
  match s.data with
  | '-' :: rest => (parseDigits rest).map (fun n => -(n : Int))
  | l => (parseDigits l).map (fun n => (n : Int))

/-- `pd.to_numeric(..., errors='coerce')` on one scalar: unparseable values
become NaN (numbers are modelled as integers, so numeric parsing is integer
parsing here). -/
def coerceNumeric : Value → Value
  | Value.int n => Value.int n
  | Value.bool b => Value.int (if b then 1 else 0)
  | Value.str s =>
      match strToInt s with
      | some n => Value.int n
      | none => Value.null
  | Value.null => Value.null

/-- All-or-nothing conversion of one column through a fallible scalar
conversion: pandas `to_datetime` / `astype` raise if any value fails, and the
`except` branch of `_convert_types` then leaves the column unchanged. -/
def strictConvertCol (df : Batch) (c : String) (f : Value → Option Value) : Batch :=
  if df.all (fun r => (f (cellVal r c)).isSome) then
    df.map (fun r => setCell r c ((f (cellVal r c)).getD Value.null))
  else
    df

/-- One iteration of the `for column, dtype in type_mapping.items()` loop of
`DataTransformer._convert_types`: skipped when the column is absent;
`datetime` and named dtypes convert all-or-nothing (failure logged, column
unchanged); `numeric` coerces per cell with failures becoming NaN. -/
def applyConvert (ext : ExtOps) (df : Batch) (c : String) (dtype : String) : Batch :=
  if c ∈ batchCols df then
    if dtype = "datetime" then strictConvertCol df c ext.toDatetime
    else if dtype = "numeric" then
      df.map (fun r => setCell r c (coerceNumeric (cellVal r c)))
    else strictConvertCol df c (ext.astype dtype)
  else df

/-- `DataTransformer._convert_types`. -/
def convertTypes (ext : ExtOps) (df : Batch) (mapping : List (String × String)) : Batch :=
  mapping.foldl (fun df p => applyConvert ext df p.1 p.2) df

/-- First-occurrence duplicate removal (`df.drop_duplicates()`). -/
def dropDupAux (seen : List Row) : List Row → List Row
  | [] => []
  | r :: rest =>
      if seen.contains r then dropDupAux seen rest
      else r :: dropDupAux (r :: seen) rest

/-- `df.drop_duplicates()`: keep the first occurrence of each row. -/
def dropDuplicates (df : Batch) : Batch := dropDupAux [] df

/-- Clean-data options of `DataTransformer._clean_data` (the keys present in
the step's `operations` dictionary). -/
structure CleanOps where
  removeDuplicates : Bool
  handleNulls : Option String
  fillValue : Value
  trimStrings : Bool
deriving Repr

/-- True if the row has a null cell in some frame column. -/
def rowHasNull (cols : List String) (r : Row) : Bool :=
  cols.any (fun c => cellVal r c = Value.null)

/-- Trim one cell if it is a string (pandas `str.strip` over object columns,
applied only to non-null values). -/
def trimCell : Value → Value
  | Value.str s => Value.str s.trim
  | v => v

/-- `DataTransformer._clean_data`: duplicates, nulls, then string trimming,
in the source's order. -/
def cleanData (df : Batch) (ops : CleanOps) : Batch :=
  let df := if ops.removeDuplicates then dropDuplicates df else df
  let df :=
    match ops.handleNulls with
    | some s =>
        if s = "drop" then df.filter (fun r => !(rowHasNull (batchCols df) r))
        else if s = "fill" then
          df.map (fun r => r.map (fun p => if p.2 = Value.null then (p.1, ops.fillValue) else p))
        else df
    | none => df
  if ops.trimStrings then df.map (fun r => r.map (fun p => (p.1, trimCell p.2))) else df

/-- Transform-step descriptors, one constructor per recognized `type` string
of `DataTransformer.transform`; `other` stands for any unrecognized type
string. -/
inductive TStep
  | dropColumnsStep (columns : List String)
  | renameColumnsStep (mapping : List (String × String))
  | filterRowsStep (conditions : List Condition)
  | convertTypesStep (mapping : List (String × String))
  | cleanDataStep (ops : CleanOps)
  | aggregateStep (groupBy : List String) (aggregations : List (String × String))
  | joinStep
  | pivotStep (index : List String) (column : String) (values : List String)
  | customStep (functionCode : String)
  | other (ty : String)

/-- One arm of the dispatch in `DataTransformer.transform`; `join` is a
logged no-op in the source, and an unknown type logs a warning and leaves the
frame unchanged. -/
def applyStep (ext : ExtOps) (df : Batch) (s : TStep) : Batch :=
  match s with
  | TStep.dropColumnsStep cols => dropColumns df cols
  | TStep.renameColumnsStep m => renameColumns df m
  | TStep.filterRowsStep conds => filterRows df conds
  | TStep.convertTypesStep m => convertTypes ext df m
  | TStep.cleanDataStep ops => cleanData df ops
  | TStep.aggregateStep gb aggs => ext.aggregate gb aggs df
  | TStep.joinStep => df
  | TStep.pivotStep i c v => ext.pivotTable i c v df
  | TStep.customStep code => ext.execTransform code df
  | TStep.other _ => df

/-- `DataTransformer.transform`: the configured steps applied in order. -/
def transform (ext : ExtOps) (df : Batch) (steps : List TStep) : Batch :=
  steps.foldl (applyStep ext) df

/-! ## Validator (`DataValidator`) -/

/-- Render a value as text (`Series.astype(str)`; pandas renders NaN as
"nan" and booleans as "True"/"False"). -/
def valueToStr : Value → String
  | Value.null => "nan"
  | Value.int n => toString n
  | Value.str s => s
  | Value.bool b => if b then "True" else "False"

/-- Validation-check descriptors, one constructor per recognized `type`
string of `DataValidator.validate`; `custom` carries the user code string and
`other` stands for any unrecognized type string. -/
inductive Check
  | notNull (columns : List String)
  | uniqueCheck (columns : List String)
  | rangeCheck (column : String) (min max : Option Value)
  | formatCheck (column : String) (pattern : String)
  | custom (functionCode : String)
  | other (ty : String)

/-- The `type` string of a check descriptor (the `check['type']` field). -/
def checkType : Check → String
  | Check.notNull _ => "not_null"
  | Check.uniqueCheck _ => "unique"
  | Check.rangeCheck _ _ _ => "range"
  | Check.formatCheck _ _ => "format"
  | Check.custom _ => "custom"
  | Check.other ty => ty

/-- The column loop of `_check_not_null`: columns are visited in order; the
loop accesses `df[column]` (a KeyError when the column is absent, modelled
as `.error`) and returns `False` at the first column containing a null
without touching the remaining columns. -/
def notNullScan (df : Batch) : List String → Except String Bool
  | [] => Except.ok true
  | c :: rest =>
      if c ∈ batchCols df then
        if df.any (fun r => cellVal r c = Value.null) then Except.ok false
        else notNullScan df rest
      else Except.error "KeyError"

/-- Evaluate one check against a Batch, mirroring the `_check_*` helpers of
`DataValidator`.  `not_null` scans its columns in order, failing at the
first null-containing column before any later column is accessed; `unique`
indexes `df[columns]` all at once, so any absent listed column raises;
`range` accesses the column only when a bound is configured.  A raised
pandas KeyError is modelled as `.error`; an unrecognized check type leaves
`check_result` at its initialised `True`. -/
def runCheck (ext : ExtOps) (df : Batch) (c : Check) : Except String Bool :=
  match c with
  | Check.notNull cols => notNullScan df cols
  | Check.uniqueCheck cols =>
      if cols.all (fun c => c ∈ batchCols df) then
        Except.ok (decide (df.map (fun r => cols.map (cellVal r))).Nodup)
      else Except.error "KeyError"
  | Check.rangeCheck col mn mx =>
      if mn.isNone && mx.isNone then Except.ok true
      else if col ∈ batchCols df then
        Except.ok
          ((match mn with
            | some v => !(df.any (fun r => valueLt (cellVal r col) v))
            | none => true)
           &&
           (match mx with
            | some v => !(df.any (fun r => valueLt v (cellVal r col)))
            | none => true))
      else Except.error "KeyError"
  | Check.formatCheck col pattern =>
      if col ∈ batchCols df then
        Except.ok (df.all (fun r => ext.strMatch pattern (valueToStr (cellVal r col))))
      else Except.error "KeyError"
  | Check.custom code => ext.execCheck code df
  | Check.other _ => Except.ok true

/-- The Validation Report of `DataValidator.validate`: overall pass flag,
per-check results (check type and its pass flag), error messages. -/
structure VReport where
  passed : Bool
  checks : List (String × Bool)
  errors : List String
deriving DecidableEq, Repr

/-- The `for check in checks` loop of `DataValidator.validate`: each
returned check result is appended to the report; a failing check clears the
overall flag and records an error; a check that raises is caught by the
surrounding `except`, which clears the flag, appends the exception text and
returns the report collected so far. -/
def validateAux (ext : ExtOps) (df : Batch) (acc : VReport) : List Check → VReport
  | [] => acc
  | c :: rest =>
      match runCheck ext df c with
      | Except.error m =>
          { acc with passed := false, errors := acc.errors ++ [m] }
      | Except.ok b =>
          validateAux ext df
            { passed := acc.passed && b
              checks := acc.checks ++ [(checkType c, b)]
              errors := if b then acc.errors else acc.errors ++ [checkType c] }
            rest

/-- `DataValidator.validate`: report initialised as passing and empty. -/
def validate (ext : ExtOps) (df : Batch) (checks : List Check) : VReport :=
  validateAux ext df { passed := true, checks := [], errors := [] } checks

/-- The boolean outcome of a check evaluation that did not raise. -/
def okRes (e : Except String Bool) : Bool :=
  match e with
  | Except.ok b => b
  | Except.error _ => false

/-- True if a check evaluation did not raise. -/
def isOkE (e : Except String Bool) : Bool :=
  match e with
  | Except.ok _ => true
  | Except.error _ => false

/-! ## Loader (`DataLoader`) -/

/-- `records[i:i+batch_size]` slices of `DataLoader._load_api`'s batching
loop (`range(0, len(records), batch_size)`); a zero step makes `range` raise,
so no chunks exist in that case. -/
def chunkList (bs : Nat) : List Row → List (List Row)
  | [] => []
  | r :: rest =>
      match bs with
      | 0 => []
      | b + 1 =>
          ((r :: rest).take (b + 1)) :: chunkList (b + 1) (List.drop (b + 1) (r :: rest))
termination_by l => l.length
decreasing_by simp [List.length_drop]; omega

/-- The batching loop of `DataLoader._load_api`: POST each chunk in order,
stopping with failure on the first non-200 response (`post i` is the HTTP
status returned for the i-th request).  Returns the call's success flag and
the chunks actually sent.  A zero `batch_size` makes Python's `range` raise,
which the caller's `except` turns into a failed load with nothing sent. -/
def sendBatches (bs : Nat) (post : Nat → Nat) : Nat → List Row → Bool × List (List Row)
  | _, [] =>
      match bs with
      | 0 => (false, [])
      | _ + 1 => (true, [])
  | i, r :: rest =>
      match bs with
      | 0 => (false, [])
      | b + 1 =>
          let batch := (r :: rest).take (b + 1)
          if post i = 200 then
            let nxt := sendBatches (b + 1) post (i + 1) (List.drop (b + 1) (r :: rest))
            (nxt.1, batch :: nxt.2)
          else (false, [batch])
termination_by _ l => l.length
decreasing_by simp [List.length_drop]; omega

/-- Uppercase a string (`str.upper()` over the character list). -/
def strUpper (s : String) : String :=
  String.mk (s.data.map Char.toUpper)

/-- `DataLoader._load_api`: only the POST method sends anything (the loop
body is guarded by `if method.upper() == 'POST'`); with another method every
iteration is a no-op and the call reports success. -/
def loadApi (method : String) (bs : Nat) (post : Nat → Nat) (records : List Row) :
    Bool × List (List Row) :=
  if strUpper method = "POST" then sendBatches bs post 0 records
  else (true, [])

/-- The destination-type strings recognized by `DataLoader.load`. -/
def recognizedDestinations : List String :=
  ["csv", "json", "database", "s3", "api"]

/-- The dispatch of `DataLoader.load`: a recognized destination runs its
handler (modelled abstractly; `.error` is a raised exception), an unknown
one raises ValueError. -/
def loadDispatch (destType : String) (handler : String → Except String Bool) :
    Except String Bool :=
  if destType ∈ recognizedDestinations then handler destType
  else Except.error "Unsupported destination type"

/-- `DataLoader.load`: the surrounding try/except maps any raised exception
to the return value `False`. -/
def loaderLoad (destType : String) (handler : String → Except String Bool) : Bool :=
  match loadDispatch destType handler with
  | Except.ok b => b
  | Except.error _ => false

/-! ## Pipeline Orchestrator (`ETLPipeline.run`) -/

/-- The pipeline stages entered during a run. -/
inductive Stage
  | extracting
  | transforming
  | validating
  | loading
deriving DecidableEq, Repr

/-- How a run terminated. -/
inductive Outcome
  | extractError
  | noData
  | transformError
  | validationFailed
  | loadFailed
  | success
deriving DecidableEq, Repr

/-- `ETLPipeline.run`, embedded over the stage outcomes: the extractor result
(an exception or a frame), the transformer (may raise), the validator (total:
it catches its own exceptions) and the loader (total: it returns `False` on
its own exceptions).  `stopOnValidationError` is the configured
`stop_on_validation_error` value, absent meaning the default `True`.  Returns
the boolean run result, the terminal outcome, and the stages entered. -/
def runPipeline (stopOnValidationError : Option Bool)
    (extractR : Except String Batch)
    (transformF : Batch → Except String Batch)
    (validateF : Batch → VReport)
    (loadF : Batch → Bool) : Bool × Outcome × List Stage :=
  match extractR with
  | Except.error _ => (false, Outcome.extractError, [Stage.extracting])
  | Except.ok df =>
      if batchEmpty df then (false, Outcome.noData, [Stage.extracting])
      else
        match transformF df with
        | Except.error _ =>
            (false, Outcome.transformError, [Stage.extracting, Stage.transforming])
        | Except.ok df2 =>
            let rep := validateF df2
            if !rep.passed && stopOnValidationError.getD true then
              (false, Outcome.validationFailed,
                [Stage.extracting, Stage.transforming, Stage.validating])
            else if loadF df2 then
              (true, Outcome.success,
                [Stage.extracting, Stage.transforming, Stage.validating, Stage.loading])
            else
              (false, Outcome.loadFailed,
                [Stage.extracting, Stage.transforming, Stage.validating, Stage.loading])

/-! ## Chunked table copy (`DatabaseMigration._migrate_table`) -/

/-- The `while offset < total_rows` loop of `_migrate_table`, with explicit
fuel (the loop has no syntactic bound; the termination theorem shows the
fuel needed is at most one more than `ceil(total_rows / batch_size)` when
`batch_size > 0`).  `read offset` models the paged `SELECT ... LIMIT
batch_size OFFSET offset`; the loop also exits when a read batch is empty.
Returns the migrated row count and the number of iterations executed. -/
def migrateLoop (fuel : Nat) (bs : Nat) (total : Nat) (read : Nat → Batch)
    (offset : Nat) (migrated : Nat) (iters : Nat) : Option (Nat × Nat) :=
  match fuel with
  | 0 => none
  | f + 1 =>
      if offset < total then
        let df := read offset
        if df.isEmpty then some (migrated, iters)
        else migrateLoop f bs total read (offset + bs) (migrated + df.length) (iters + 1)
      else some (migrated, iters)

/-! ## Theorems -/

/-- C1: given an empty extracted Batch, `ETLPipeline.run` terminates in the
Aborted state with the "no data" outcome (not an error outcome), returns
`False`, and does not enter the Transform, Validate or Load stages. -/
theorem run_empty_batch_aborts_no_data
    (so : Option Bool) (tf : Batch → Except String Batch)
    (vf : Batch → VReport) (lf : Batch → Bool) (df : Batch)
    (h : batchEmpty df = true) :
    runPipeline so (Except.ok df) tf vf lf =
      (false, Outcome.noData, [Stage.extracting]) ∧
    Stage.transforming ∉ (runPipeline so (Except.ok df) tf vf lf).2.2 ∧
    Stage.validating ∉ (runPipeline so (Except.ok df) tf vf lf).2.2 ∧
    Stage.loading ∉ (runPipeline so (Except.ok df) tf vf lf).2.2 := by
  simp [runPipeline, h]

/-- Witness for C1 at the concrete empty Batch. -/
theorem run_empty_batch_aborts_no_data_witness :
    runPipeline none (Except.ok []) (fun df => Except.ok df)
        (fun _ => ⟨true, [], []⟩) (fun _ => true) =
      (false, Outcome.noData, [Stage.extracting]) :=
  (run_empty_batch_aborts_no_data none (fun df => Except.ok df)
    (fun _ => ⟨true, [], []⟩) (fun _ => true) [] (by decide)).1

/-- C2: with `stop_on_validation_error` set to false and a failing Validation
Report, the run still proceeds from the Validating stage to the Loading
stage; with the flag true or absent (the default is true) and a failing
Report, the run aborts with the validation-failed outcome and never enters
the Loading stage. -/
theorem run_validation_gate
    (so : Option Bool) (tf : Batch → Except String Batch)
    (vf : Batch → VReport) (lf : Batch → Bool) (df df2 : Batch)
    (hne : batchEmpty df = false) (htf : tf df = Except.ok df2)
    (hrep : (vf df2).passed = false) :
    (so = some false →
      Stage.loading ∈ (runPipeline so (Except.ok df) tf vf lf).2.2) ∧
    (so.getD true = true →
      runPipeline so (Except.ok df) tf vf lf =
        (false, Outcome.validationFailed,
          [Stage.extracting, Stage.transforming, Stage.validating]) ∧
      Stage.loading ∉ (runPipeline so (Except.ok df) tf vf lf).2.2) := by
  constructor
  · intro hso
    subst hso
    simp only [runPipeline, hne, htf]
    simp only [hrep, Bool.not_false, Option.getD_some, Bool.and_false,
      Bool.false_eq_true, if_false]
    split <;> simp
  · intro hso
    simp [runPipeline, hne, htf, hrep, hso]

/-- Witness for C2 at a concrete one-row Batch, a failing validator, and
both settings of the flag. -/
theorem run_validation_gate_witness :
    (some false = some false →
      Stage.loading ∈ (runPipeline (some false) (Except.ok [[("a", Value.int 1)]])
        (fun df => Except.ok df) (fun _ => ⟨false, [], []⟩) (fun _ => true)).2.2) ∧
    ((some true : Option Bool).getD true = true →
      runPipeline (some true) (Except.ok [[("a", Value.int 1)]])
        (fun df => Except.ok df) (fun _ => ⟨false, [], []⟩) (fun _ => true) =
        (false, Outcome.validationFailed,
          [Stage.extracting, Stage.transforming, Stage.validating]) ∧
      Stage.loading ∉ (runPipeline (some true) (Except.ok [[("a", Value.int 1)]])
        (fun df => Except.ok df) (fun _ => ⟨false, [], []⟩) (fun _ => true)).2.2) :=
  ⟨(run_validation_gate (some false) (fun df => Except.ok df)
      (fun _ => ⟨false, [], []⟩) (fun _ => true) [[("a", Value.int 1)]]
      [[("a", Value.int 1)]] (by decide) rfl rfl).1,
   (run_validation_gate (some true) (fun df => Except.ok df)
      (fun _ => ⟨false, [], []⟩) (fun _ => true) [[("a", Value.int 1)]]
      [[("a", Value.int 1)]] (by decide) rfl rfl).2⟩

/-- The run result of the orchestrator is `True` exactly on the success
outcome (every other terminal path returns `False`). -/
theorem runPipeline_success_iff (so : Option Bool) (ex : Except String Batch)
    (tf : Batch → Except String Batch) (vf : Batch → VReport)
    (lf : Batch → Bool) :
    (runPipeline so ex tf vf lf).1 = true ↔
      (runPipeline so ex tf vf lf).2.1 = Outcome.success := by
  unfold runPipeline
  rcases ex with m | df
  · simp
  · by_cases he : batchEmpty df = true
    · simp [he]
    · rcases htf : tf df with m | df2
      · simp [he, htf]
      · simp only [he, htf, Bool.false_eq_true, if_false]
        split
        · simp
        · split <;> simp

/-- C9: `ETLPipeline.run` maps every non-success path (extraction error,
empty data, transform error, validation abort, load failure) to the return
value `False` rather than propagating an exception (the embedding returns a
plain boolean: no exception escapes), and `DataLoader.load` maps every
exception raised inside its dispatch to the return value `False`. -/
theorem run_and_load_swallow_failures
    (so : Option Bool) (ex : Except String Batch)
    (tf : Batch → Except String Batch) (vf : Batch → VReport)
    (lf : Batch → Bool) :
    ((runPipeline so ex tf vf lf).2.1 ≠ Outcome.success →
      (runPipeline so ex tf vf lf).1 = false) ∧
    (∀ destType handler m, loadDispatch destType handler = Except.error m →
      loaderLoad destType handler = false) := by
  constructor
  · intro h
    cases hr : (runPipeline so ex tf vf lf).1
    · rfl
    · exact absurd ((runPipeline_success_iff so ex tf vf lf).mp hr) h
  · intro destType handler m hm
    unfold loaderLoad
    rw [hm]

/-- Witness for C9: a failing extraction and an unknown destination type,
both mapped to `False`. -/
theorem run_and_load_swallow_failures_witness :
    (runPipeline none (Except.error "boom") (fun df => Except.ok df)
        (fun _ => ⟨true, [], []⟩) (fun _ => true)).1 = false ∧
    loaderLoad "kafka" (fun _ => Except.ok true) = false :=
  ⟨(run_and_load_swallow_failures none (Except.error "boom")
      (fun df => Except.ok df) (fun _ => ⟨true, [], []⟩) (fun _ => true)).1
      (by decide),
   (run_and_load_swallow_failures none (Except.error "boom")
      (fun df => Except.ok df) (fun _ => ⟨true, [], []⟩) (fun _ => true)).2
      "kafka" (fun _ => Except.ok true) "Unsupported destination type" rfl⟩

/-- Filtering a row twice with the same column exclusion equals filtering
once. -/
theorem row_filter_idem (r : Row) (p : String × Value → Bool) :
    (r.filter p).filter p = r.filter p := by
  rw [List.filter_filter]
  apply List.filter_congr
  intro a _
  exact Bool.and_self (p a)

/-- C6: the drop-columns step is idempotent (applying it twice with the same
column list yields the same Batch as once), and dropping a column absent
from the Batch is a no-op, not an error. -/
theorem drop_columns_idempotent_and_absent_noop
    (df : Batch) (cols : List String) (c : String)
    (h : c ∉ batchCols df) :
    dropColumns (dropColumns df cols) cols = dropColumns df cols ∧
    dropColumns df [c] = df := by
  constructor
  · unfold dropColumns
    rw [List.map_map]
    apply List.map_congr_left
    intro r _
    exact row_filter_idem r _
  · unfold dropColumns
    conv_rhs => rw [← List.map_id df]
    apply List.map_congr_left
    intro r hr
    simp only [id_eq]
    rw [List.filter_eq_self]
    intro p hp
    have hpc : p.1 ≠ c := by
      intro hpc
      apply h
      unfold batchCols
      rw [List.mem_flatten]
      exact ⟨rowCols r, List.mem_map_of_mem rowCols hr, hpc ▸ List.mem_map_of_mem Prod.fst hp⟩
    simp [hpc]

/-- Witness for C6 at a concrete Batch: dropping present column "a" twice
and dropping absent column "z". -/
theorem drop_columns_idempotent_and_absent_noop_witness :
    dropColumns (dropColumns [[("a", Value.int 1), ("b", Value.int 2)]] ["a"]) ["a"] =
      dropColumns [[("a", Value.int 1), ("b", Value.int 2)]] ["a"] ∧
    dropColumns [[("a", Value.int 1), ("b", Value.int 2)]] ["z"] =
      [[("a", Value.int 1), ("b", Value.int 2)]] :=
  drop_columns_idempotent_and_absent_noop
    [[("a", Value.int 1), ("b", Value.int 2)]] ["a"] "z" (by decide)

/-- Counterexample to C5: a datetime conversion in which a value fails to
convert (pandas `to_datetime` raises on "x") leaves the cell at its original
value, not null — the `except` branch of `_convert_types` keeps the whole
column unchanged. -/
theorem convert_types_failure_not_nulled_counterexample :
    convertTypes extId [[("d", Value.str "x")]] [("d", "datetime")] =
      [[("d", Value.str "x")]] ∧
    convertTypes extId [[("d", Value.str "x")]] [("d", "datetime")] ≠
      [[("d", Value.null)]] := by
  constructor
  · rfl
  · decide

/-- C5 (amended): only the numeric target type coerces per cell — a value
failing numeric conversion yields null for that cell, the step does not
raise, and converting the column values "5", "x", "7" to numeric yields
5, null, 7; datetime and other named target types convert a column
all-or-nothing, so a failing value leaves the whole column unchanged
(non-fatal, logged) rather than yielding null. -/
theorem convert_types_amended
    (ext : ExtOps) (df : Batch) (c : String) (s : String) (dtype : String)
    (hc : c ∈ batchCols df)
    (hs : strToInt s = none)
    (hdt : ¬ df.all (fun r => (ext.toDatetime (cellVal r c)).isSome) = true)
    (hty : dtype ≠ "datetime") (hty2 : dtype ≠ "numeric")
    (hat : ¬ df.all (fun r => (ext.astype dtype (cellVal r c)).isSome) = true) :
    convertTypes ext df [(c, "numeric")] =
      df.map (fun r => setCell r c (coerceNumeric (cellVal r c))) ∧
    coerceNumeric (Value.str s) = Value.null ∧
    convertTypes ext
      [[("age", Value.str "5")], [("age", Value.str "x")], [("age", Value.str "7")]]
      [("age", "numeric")] =
      [[("age", Value.int 5)], [("age", Value.null)], [("age", Value.int 7)]] ∧
    convertTypes ext df [(c, "datetime")] = df ∧
    convertTypes ext df [(c, dtype)] = df := by
  refine ⟨?_, ?_, ?_, ?_, ?_⟩
  · simp [convertTypes, applyConvert, hc]
  · simp [coerceNumeric, hs]
  · rfl
  · simp only [convertTypes, List.foldl_cons, List.foldl_nil]
    unfold applyConvert
    rw [if_pos hc, if_pos rfl]
    unfold strictConvertCol
    rw [if_neg hdt]
  · simp only [convertTypes, List.foldl_cons, List.foldl_nil]
    unfold applyConvert
    rw [if_pos hc, if_neg hty, if_neg hty2]
    unfold strictConvertCol
    rw [if_neg hat]

/-- Witness for C5 (amended) at concrete data: column "d" of a one-row
Batch, the unparseable string "x", and the named dtype "int64" under the
trivial external surface (whose conversions fail on every value). -/
theorem convert_types_amended_witness :
    convertTypes extId [[("d", Value.str "x")]] [("d", "numeric")] =
      [[("d", Value.str "x")]].map
        (fun r => setCell r "d" (coerceNumeric (cellVal r "d"))) ∧
    coerceNumeric (Value.str "x") = Value.null ∧
    convertTypes extId
      [[("age", Value.str "5")], [("age", Value.str "x")], [("age", Value.str "7")]]
      [("age", "numeric")] =
      [[("age", Value.int 5)], [("age", Value.null)], [("age", Value.int 7)]] ∧
    convertTypes extId [[("d", Value.str "x")]] [("d", "datetime")] =
      [[("d", Value.str "x")]] ∧
    convertTypes extId [[("d", Value.str "x")]] [("d", "int64")] =
      [[("d", Value.str "x")]] :=
  convert_types_amended extId [[("d", Value.str "x")]] "d" "x" "int64"
    (by decide) (by decide) (by decide) (by decide) (by decide) (by decide)

/-- Each pass of the condition loop is a filter by that condition's row
predicate (an unrecognized operator filters nothing, and its predicate is
vacuously true). -/
theorem applyCondition_eq_filter (df : Batch) (c : Condition) :
    applyCondition df c = df.filter (condPred c) := by
  unfold applyCondition condPred
  split_ifs <;> simp [List.filter_true]

/-- `_filter_rows` equals a single filter by the conjunction of all the
condition predicates. -/
theorem filterRows_eq_filter (conds : List Condition) (df : Batch) :
    filterRows df conds = df.filter (fun r => conds.all (fun c => condPred c r)) := by
  induction conds generalizing df with
  | nil => simp [filterRows, List.filter_true]
  | cons c rest ih =>
      unfold filterRows at *
      rw [List.foldl_cons, ih, applyCondition_eq_filter, List.filter_filter]
      apply List.filter_congr
      intro r _
      rw [List.all_cons, Bool.and_comm]

/-- C4: the output of a filter-rows step over the recognized operators is
the conjunction of its conditions — every output row satisfies every
condition, and every input row failing some condition is absent from the
output.  The hypotheses restrict to the claim's scope: each condition uses
one of the eight recognized operator strings and names a column of the
Batch. -/
theorem filter_rows_conjunction (df : Batch) (conds : List Condition)
    (h : ∀ c ∈ conds, c.op ∈ recognizedOps ∧ c.column ∈ batchCols df) :
    (∀ r ∈ filterRows df conds, ∀ c ∈ conds, condPred c r = true) ∧
    (∀ r ∈ df, (∃ c ∈ conds, condPred c r = false) → r ∉ filterRows df conds) := by
  rw [filterRows_eq_filter]
  constructor
  · intro r hr c hc
    rcases List.mem_filter.mp hr with ⟨_, hall⟩
    exact List.all_eq_true.mp hall c hc
  · rintro r _ ⟨c, hc, hfail⟩ hmem
    rcases List.mem_filter.mp hmem with ⟨_, hall⟩
    rw [List.all_eq_true.mp hall c hc] at hfail
    cases hfail

/-- Witness for C4, spec scenario B: ages 15, 18, 22 filtered by
age >= 18 — the kept row with age 18 satisfies the condition and the row
with age 15 is absent from the output. -/
theorem filter_rows_conjunction_witness :
    condPred ⟨"age", ">=", CondValue.scalar (Value.int 18)⟩ [("age", Value.int 18)] = true ∧
    [("age", Value.int 15)] ∉
      filterRows [[("age", Value.int 15)], [("age", Value.int 18)], [("age", Value.int 22)]]
        [⟨"age", ">=", CondValue.scalar (Value.int 18)⟩] :=
  ⟨(filter_rows_conjunction
      [[("age", Value.int 15)], [("age", Value.int 18)], [("age", Value.int 22)]]
      [⟨"age", ">=", CondValue.scalar (Value.int 18)⟩]
      (by decide)).1 [("age", Value.int 18)] (by decide)
      ⟨"age", ">=", CondValue.scalar (Value.int 18)⟩ (by decide),
   (filter_rows_conjunction
      [[("age", Value.int 15)], [("age", Value.int 18)], [("age", Value.int 22)]]
      [⟨"age", ">=", CondValue.scalar (Value.int 18)⟩]
      (by decide)).2 [("age", Value.int 15)] (by decide)
      ⟨⟨"age", ">=", CondValue.scalar (Value.int 18)⟩, by decide, by decide⟩⟩

/-- When every check in the list evaluates without raising, the validate
loop is a plain fold: results are the per-check outcomes appended in order,
the pass flag is the conjunction, and errors list the failing checks. -/
theorem validateAux_allOk (ext : ExtOps) (df : Batch) :
    ∀ (l : List Check) (acc : VReport),
      (∀ c ∈ l, isOkE (runCheck ext df c) = true) →
      validateAux ext df acc l =
        ⟨acc.passed && l.all (fun c => okRes (runCheck ext df c)),
         acc.checks ++ l.map (fun c => (checkType c, okRes (runCheck ext df c))),
         acc.errors ++ (l.filter (fun c => !(okRes (runCheck ext df c)))).map checkType⟩ := by
  intro l
  induction l with
  | nil => intro acc h; simp [validateAux]
  | cons c rest ih =>
      intro acc h
      have hc := h c (List.mem_cons_self c rest)
      cases hrc : runCheck ext df c with
      | error m => rw [hrc] at hc; simp [isOkE] at hc
      | ok b =>
          simp only [validateAux, hrc]
          rw [ih _ (fun x hx => h x (List.mem_cons_of_mem c hx))]
          cases b <;> simp [hrc, okRes, Bool.and_assoc]

/-- The validate loop distributes over append when the whole first segment
evaluates without raising. -/
theorem validateAux_append_ok (ext : ExtOps) (df : Batch) (l1 l2 : List Check) :
    ∀ acc : VReport,
      (∀ c ∈ l1, isOkE (runCheck ext df c) = true) →
      validateAux ext df acc (l1 ++ l2) =
        validateAux ext df (validateAux ext df acc l1) l2 := by
  induction l1 with
  | nil => intro acc _; rfl
  | cons c rest ih =>
      intro acc h
      have hc := h c (List.mem_cons_self c rest)
      cases hrc : runCheck ext df c with
      | error m => rw [hrc] at hc; simp [isOkE] at hc
      | ok b =>
          simp only [List.cons_append, validateAux, hrc]
          exact ih _ (fun x hx => h x (List.mem_cons_of_mem c hx))

/-- Frame property of the validate loop: the starting accumulator only
threads through — the pass flag is conjoined with, and the check and error
lists are appended to, the result from the empty report. -/
theorem validateAux_frame (ext : ExtOps) (df : Batch) :
    ∀ (l : List Check) (p : Bool) (cs : List (String × Bool)) (es : List String),
      validateAux ext df ⟨p, cs, es⟩ l =
        ⟨p && (validateAux ext df ⟨true, [], []⟩ l).passed,
         cs ++ (validateAux ext df ⟨true, [], []⟩ l).checks,
         es ++ (validateAux ext df ⟨true, [], []⟩ l).errors⟩ := by
  intro l
  induction l with
  | nil => intro p cs es; simp [validateAux]
  | cons c rest ih =>
      intro p cs es
      cases hrc : runCheck ext df c with
      | error m => simp [validateAux, hrc]
      | ok b =>
          simp only [validateAux, hrc]
          conv_rhs => rw [ih]
          rw [ih]
          cases b <;> simp [Bool.and_assoc]

/-- Counterexample to C3: with N = 2 check descriptors of which the first
raises (its column is absent from the Batch, a KeyError in pandas), the
Report contains 0 per-check results, not exactly N = 2 — the surrounding
`except` aborts the check loop early. -/
theorem validator_aborted_report_counterexample :
    (validate extId [] [Check.notNull ["a"], Check.notNull ["b"]]).checks.length = 0 ∧
    (validate extId [] [Check.notNull ["a"], Check.notNull ["b"]]).checks.length ≠ 2 := by
  constructor
  · rfl
  · decide

/-- C3 (amended): for every Batch and every list of N check descriptors
each of which evaluates without raising, validate returns a Report with
exactly N per-check results in order, evaluates every check even after one
fails, marks each failing check failed, and clears the overall pass flag
exactly when at least one check fails.  A check that raises (e.g. it
accesses a column absent from the Batch, a pandas KeyError) instead aborts
the loop: the Report keeps only the results of the checks before it, is
marked failed, and records the exception text. -/
theorem validator_no_short_circuit (ext : ExtOps) (df : Batch)
    (checks : List Check) (pre post : List Check) (c : Check) (m : String)
    (h : ∀ x ∈ checks, isOkE (runCheck ext df x) = true)
    (hpre : ∀ x ∈ pre, isOkE (runCheck ext df x) = true)
    (hrc : runCheck ext df c = Except.error m) :
    (validate ext df checks).checks.length = checks.length ∧
    (validate ext df checks).checks =
      checks.map (fun x => (checkType x, okRes (runCheck ext df x))) ∧
    (∀ x ∈ checks, runCheck ext df x = Except.ok false →
      (checkType x, false) ∈ (validate ext df checks).checks) ∧
    (validate ext df checks).passed =
      checks.all (fun x => okRes (runCheck ext df x)) ∧
    ((validate ext df checks).passed = false ↔
      ∃ x ∈ checks, okRes (runCheck ext df x) = false) ∧
    validate ext df (pre ++ c :: post) =
      ⟨false,
       pre.map (fun x => (checkType x, okRes (runCheck ext df x))),
       (pre.filter (fun x => !(okRes (runCheck ext df x)))).map checkType ++ [m]⟩ := by
  have hval : validate ext df checks =
      ⟨checks.all (fun x => okRes (runCheck ext df x)),
       checks.map (fun x => (checkType x, okRes (runCheck ext df x))),
       (checks.filter (fun x => !(okRes (runCheck ext df x)))).map checkType⟩ := by
    unfold validate
    rw [validateAux_allOk ext df checks _ h]
    simp
  refine ⟨?_, ?_, ?_, ?_, ?_, ?_⟩
  · rw [hval]; simp
  · rw [hval]
  · intro x hx hfail
    rw [hval]
    simp only [List.mem_map]
    exact ⟨x, hx, by rw [hfail]; rfl⟩
  · rw [hval]
  · rw [hval]
    show (checks.all (fun x => okRes (runCheck ext df x)) = false) ↔ _
    constructor
    · intro hfalse
      by_contra hno
      push_neg at hno
      have hall : checks.all (fun x => okRes (runCheck ext df x)) = true :=
        List.all_eq_true.mpr (fun x hx => by
          cases hb : okRes (runCheck ext df x)
          · exact absurd hb (hno x hx)
          · rfl)
      rw [hall] at hfalse
      cases hfalse
    · rintro ⟨x, hx, hfalse⟩
      cases hall : checks.all (fun x => okRes (runCheck ext df x))
      · rfl
      · have := List.all_eq_true.mp hall x hx
        rw [hfalse] at this
        cases this
  · unfold validate
    rw [validateAux_append_ok ext df pre _ _ hpre,
        validateAux_allOk ext df pre _ hpre]
    simp only [validateAux, hrc]
    simp

/-- Witness for C3 (amended): two well-formed checks of which the second
fails, and an aborting run whose first segment is empty. -/
theorem validator_no_short_circuit_witness :
    (validate extId [[("a", Value.int 1)]]
        [Check.notNull ["a"], Check.rangeCheck "a" (some (Value.int 5)) none]).checks.length = 2 ∧
    (validate extId [[("a", Value.int 1)]]
        [Check.notNull ["a"], Check.rangeCheck "a" (some (Value.int 5)) none]).checks =
      [("not_null", true), ("range", false)] ∧
    (validate extId [[("a", Value.int 1)]]
        [Check.notNull ["a"], Check.rangeCheck "a" (some (Value.int 5)) none]).passed = false ∧
    validate extId [[("a", Value.int 1)]] ([] ++ Check.notNull ["z"] :: []) =
      ⟨false, [], [] ++ ["KeyError"]⟩ := by
  have hmain := validator_no_short_circuit extId [[("a", Value.int 1)]]
    [Check.notNull ["a"], Check.rangeCheck "a" (some (Value.int 5)) none]
    [] [] (Check.notNull ["z"]) "KeyError"
    (by decide) (by decide) rfl
  refine ⟨hmain.1, ?_, ?_, ?_⟩
  · rw [hmain.2.1]; rfl
  · rw [hmain.2.2.2.1]; rfl
  · exact hmain.2.2.2.2.2

/-- Counterexample to C7: a validation-check list containing only an
unrecognized check kind produces a Report different from the one produced
without it — the unknown kind is appended to the Report as a passing
per-check result (the dispatch initialises `check_result = True` and has no
else branch), instead of being skipped. -/
theorem unknown_check_kind_not_skipped_counterexample :
    validate extId [] [Check.other "foo"] ≠ validate extId [] [] ∧
    (validate extId [] [Check.other "foo"]).checks = [("foo", true)] := by
  constructor
  · decide
  · rfl

/-- C7 (amended): an unknown transform-step kind is logged and skipped, so
the resulting Batch is the same as if the descriptor were absent; an unknown
validation-check kind does not fail processing and leaves the overall pass
flag and the error list unchanged, but it is not absent from the Report —
the Report gains an extra per-check result for it, marked passed, at the
unknown descriptor's position (provided the checks before it evaluate
without raising). -/
theorem unknown_kinds_amended (ext : ExtOps) (df : Batch)
    (tpre tpost : List TStep) (sty : String)
    (pre post : List Check) (ty : String)
    (hpre : ∀ x ∈ pre, isOkE (runCheck ext df x) = true) :
    transform ext df (tpre ++ TStep.other sty :: tpost) =
      transform ext df (tpre ++ tpost) ∧
    (validate ext df (pre ++ Check.other ty :: post)).passed =
      (validate ext df (pre ++ post)).passed ∧
    (validate ext df (pre ++ Check.other ty :: post)).errors =
      (validate ext df (pre ++ post)).errors ∧
    (validate ext df (pre ++ Check.other ty :: post)).checks =
      (validate ext df (pre ++ post)).checks.take pre.length ++
        (ty, true) :: (validate ext df (pre ++ post)).checks.drop pre.length := by
  have htrans : transform ext df (tpre ++ TStep.other sty :: tpost) =
      transform ext df (tpre ++ tpost) := by
    unfold transform
    rw [List.foldl_append, List.foldl_append, List.foldl_cons]
    rfl
  refine ⟨htrans, ?_⟩
  unfold validate
  rw [validateAux_append_ok ext df pre _ _ hpre,
      validateAux_append_ok ext df pre _ _ hpre]
  have hpreval := validateAux_allOk ext df pre ⟨true, [], []⟩ hpre
  rcases hA : validateAux ext df ⟨true, [], []⟩ pre with ⟨p, cs, es⟩
  have hcs : cs.length = pre.length := by
    rw [hA, VReport.mk.injEq] at hpreval
    rw [hpreval.2.1]
    simp
  have hother : runCheck ext df (Check.other ty) = Except.ok true := rfl
  have hstep : validateAux ext df ⟨p, cs, es⟩ (Check.other ty :: post) =
      validateAux ext df ⟨p && true, cs ++ [(ty, true)], es⟩ post := by
    simp [validateAux, hother, checkType]
  rw [hstep, validateAux_frame ext df post (p && true) (cs ++ [(ty, true)]) es,
      validateAux_frame ext df post p cs es]
  refine ⟨by simp, rfl, ?_⟩
  rw [← hcs, List.take_left, List.drop_left]
  simp

/-- Witness for C7 (amended) at a concrete Batch, an unknown transform step
"explode" between two recognized steps, and an unknown check "freshness"
after a passing not-null check. -/
theorem unknown_kinds_amended_witness :
    transform extId [[("a", Value.int 1)]]
        ([TStep.dropColumnsStep ["b"]] ++ TStep.other "explode" :: [TStep.joinStep]) =
      transform extId [[("a", Value.int 1)]]
        ([TStep.dropColumnsStep ["b"]] ++ [TStep.joinStep]) ∧
    (validate extId [[("a", Value.int 1)]]
        ([Check.notNull ["a"]] ++ Check.other "freshness" :: [])).passed =
      (validate extId [[("a", Value.int 1)]]
        ([Check.notNull ["a"]] ++ [])).passed ∧
    (validate extId [[("a", Value.int 1)]]
        ([Check.notNull ["a"]] ++ Check.other "freshness" :: [])).errors =
      (validate extId [[("a", Value.int 1)]]
        ([Check.notNull ["a"]] ++ [])).errors ∧
    (validate extId [[("a", Value.int 1)]]
        ([Check.notNull ["a"]] ++ Check.other "freshness" :: [])).checks =
      (validate extId [[("a", Value.int 1)]]
        ([Check.notNull ["a"]] ++ [])).checks.take [Check.notNull ["a"]].length ++
        ("freshness", true) ::
        (validate extId [[("a", Value.int 1)]]
          ([Check.notNull ["a"]] ++ [])).checks.drop [Check.notNull ["a"]].length :=
  unknown_kinds_amended extId [[("a", Value.int 1)]]
    [TStep.dropColumnsStep ["b"]] [TStep.joinStep] "explode"
    [Check.notNull ["a"]] [] "freshness" (by decide)

/-- Fuel sufficiency for the copy loop: when the distance from `offset` to
`total` is covered by `k` steps of size `bs`, fuel `k + 1` returns a result
within `k` further iterations. -/
theorem migrateLoop_fuel_sufficient (bs total : Nat) (read : Nat → Batch) :
    ∀ (k offset migrated iters : Nat), total - offset ≤ k * bs →
      ∃ m i, migrateLoop (k + 1) bs total read offset migrated iters = some (m, i) ∧
        i ≤ iters + k := by
  intro k
  induction k with
  | zero =>
      intro offset migrated iters hk
      have hge : ¬ offset < total := by omega
      exact ⟨migrated, iters, by simp [migrateLoop, hge], Nat.le_refl _⟩
  | succ k ih =>
      intro offset migrated iters hk
      by_cases hlt : offset < total
      · by_cases hemp : (read offset).isEmpty = true
        · exact ⟨migrated, iters, by simp [migrateLoop, hlt, hemp], by omega⟩
        · have hk2 : total - (offset + bs) ≤ k * bs := by
            have hmul : (k + 1) * bs = k * bs + bs := Nat.succ_mul k bs
            omega
          obtain ⟨m, i, heq, hle⟩ :=
            ih (offset + bs) (migrated + (read offset).length) (iters + 1) hk2
          refine ⟨m, i, ?_, by omega⟩
          simp only [migrateLoop, hlt, if_true, hemp, if_false]
          exact heq
      · exact ⟨migrated, iters, by simp [migrateLoop, hlt], by omega⟩

/-- C10: with a finite total row count and a positive `batch_size`, the
`while offset < total_rows` loop of `DatabaseMigration._migrate_table`
terminates: the offset increases by `batch_size` every iteration (and an
empty read batch also exits the loop), so the loop returns within
`ceil(total_rows / batch_size)` iterations. -/
theorem migrate_table_loop_terminates (bs total : Nat) (read : Nat → Batch)
    (hb : 0 < bs) :
    ∃ m i, migrateLoop ((total + bs - 1) / bs + 1) bs total read 0 0 0 = some (m, i) ∧
      i ≤ (total + bs - 1) / bs := by
  have hcover : total - 0 ≤ ((total + bs - 1) / bs) * bs := by
    rcases Nat.eq_zero_or_pos total with h0 | hpos
    · simp [h0]
    · have hdm := Nat.div_add_mod (total + bs - 1) bs
      have hmod : (total + bs - 1) % bs < bs := Nat.mod_lt _ hb
      set q := (total + bs - 1) / bs with hq
      set r := (total + bs - 1) % bs with hr
      have hqc : q * bs = bs * q := Nat.mul_comm q bs
      omega
  obtain ⟨m, i, heq, hle⟩ :=
    migrateLoop_fuel_sufficient bs total read ((total + bs - 1) / bs) 0 0 0 hcover
  exact ⟨m, i, heq, by omega⟩

/-- Witness for C10: a five-row table copied in batches of two terminates
within three iterations. -/
theorem migrate_table_loop_terminates_witness :
    ∃ m i, migrateLoop ((5 + 2 - 1) / 2 + 1) 2 5 (fun _ => [[("a", Value.int 1)]]) 0 0 0 =
        some (m, i) ∧ i ≤ (5 + 2 - 1) / 2 :=
  migrate_table_loop_terminates 2 5 (fun _ => [[("a", Value.int 1)]]) (by decide)

/-- The chunks of the API batching loop concatenate back to the record list
(every row is sent exactly once, in order). -/
theorem chunkList_flatten (bs : Nat) (l : List Row) (hbs : 0 < bs) :
    (chunkList bs l).flatten = l := by
  revert hbs
  induction bs, l using chunkList.induct with
  | case1 bs => intro _; simp [chunkList]
  | case2 r rest => intro h; exact absurd h (by omega)
  | case3 r rest b ih =>
      intro _
      rw [chunkList]
      simp only [List.flatten_cons]
      rw [ih (by omega)]
      exact List.take_append_drop (b + 1) (r :: rest)

/-- Every chunk of the batching loop is non-empty and no longer than the
configured batch size. -/
theorem chunkList_mem_size (bs : Nat) (l : List Row) (hbs : 0 < bs) :
    ∀ c ∈ chunkList bs l, 0 < c.length ∧ c.length ≤ bs := by
  revert hbs
  induction bs, l using chunkList.induct with
  | case1 bs => intro _ c hc; simp [chunkList] at hc
  | case2 r rest => intro h; exact absurd h (by omega)
  | case3 r rest b ih =>
      intro _
      rw [chunkList]
      intro c hc
      rcases List.mem_cons.mp hc with hc | hc
      · subst hc
        constructor
        · simp
        · simp [List.length_take]
      · exact ih (by omega) c hc

/-- Every chunk except possibly the last has exactly the configured batch
size (the slices step by `batch_size`). -/
theorem chunkList_dropLast_size (bs : Nat) (l : List Row) (hbs : 0 < bs) :
    ∀ c ∈ (chunkList bs l).dropLast, c.length = bs := by
  revert hbs
  induction bs, l using chunkList.induct with
  | case1 bs => intro _ c hc; simp [chunkList] at hc
  | case2 r rest => intro h; exact absurd h (by omega)
  | case3 r rest b ih =>
      intro _
      rw [chunkList]
      by_cases hd : chunkList (b + 1) (List.drop (b + 1) (r :: rest)) = []
      · rw [hd]
        intro c hc
        cases hc
      · rw [List.dropLast_cons_of_ne_nil hd]
        intro c hc
        rcases List.mem_cons.mp hc with hc | hc
        · subst hc
          have hlen : b + 1 < (r :: rest).length := by
            by_contra hno
            apply hd
            have : List.drop (b + 1) (r :: rest) = [] := by
              rw [List.drop_eq_nil_iff]
              omega
            rw [this]
            simp [chunkList]
          rw [List.length_take]
          simp only [List.length_cons] at hlen ⊢
          omega
        · exact ih (by omega) c hc

/-- When every batch request succeeds (status 200), the loop sends all the
chunks and the load call succeeds. -/
theorem sendBatches_all_ok (bs : Nat) (post : Nat → Nat) (i : Nat) (l : List Row)
    (hbs : 0 < bs)
    (h : ∀ j, j < (chunkList bs l).length → post (i + j) = 200) :
    sendBatches bs post i l = (true, chunkList bs l) := by
  revert hbs h
  induction bs, post, i, l using sendBatches.induct with
  | case1 post x => intro hbs _; exact absurd hbs (by omega)
  | case2 post x b => intro _ _; simp [sendBatches, chunkList]
  | case3 post i r rest => intro hbs _; exact absurd hbs (by omega)
  | case4 post i r rest b hpost ih =>
      intro _ h
      simp only [Nat.succ_eq_add_one] at h
      rw [sendBatches]
      simp only [hpost, if_true]
      rw [ih (by omega) ?hshift]
      case hshift =>
        intro j hj
        have hlen : (chunkList (b + 1) (r :: rest)).length =
            (chunkList (b + 1) (List.drop (b + 1) (r :: rest))).length + 1 := by
          rw [chunkList]
          rfl
        have := h (j + 1) (by omega)
        have harith : i + (j + 1) = i + 1 + j := by omega
        rw [harith] at this
        exact this
      rw [chunkList]
  | case5 post i r rest b hpost =>
      intro _ h
      have h0 := h 0 (by rw [chunkList]; simp)
      rw [Nat.add_zero] at h0
      exact absurd h0 hpost

/-- When the first `k` batch requests succeed and the k-th fails, the loop
returns failure having sent exactly the first `k + 1` chunks: the batches
before the failure were sent (and are not rolled back) and no batch after
the failing one is sent. -/
theorem sendBatches_fail_at (bs : Nat) (post : Nat → Nat) (i : Nat) (l : List Row)
    (hbs : 0 < bs) :
    ∀ k, k < (chunkList bs l).length →
      (∀ j, j < k → post (i + j) = 200) →
      post (i + k) ≠ 200 →
      sendBatches bs post i l = (false, (chunkList bs l).take (k + 1)) := by
  revert hbs
  induction bs, post, i, l using sendBatches.induct with
  | case1 post x => intro hbs; exact absurd hbs (by omega)
  | case2 post x b => intro _ k hk; rw [chunkList] at hk; cases hk
  | case3 post i r rest => intro hbs; exact absurd hbs (by omega)
  | case4 post i r rest b hpost ih =>
      intro _ k hk hprev hfail
      simp only [Nat.succ_eq_add_one] at hk
      cases k with
      | zero =>
          rw [Nat.add_zero] at hfail
          exact absurd hpost hfail
      | succ k =>
          rw [sendBatches]
          simp only [hpost, if_true]
          have hlen : (chunkList (b + 1) (r :: rest)).length =
              (chunkList (b + 1) (List.drop (b + 1) (r :: rest))).length + 1 := by
            rw [chunkList]
            rfl
          rw [ih (by omega) k (by omega)
            (fun j hj => by
              have := hprev (j + 1) (by omega)
              have harith : i + (j + 1) = i + 1 + j := by omega
              rw [harith] at this
              exact this)
            (by
              have harith : i + (k + 1) = i + 1 + k := by omega
              rw [harith] at hfail
              exact hfail)]
          conv_rhs => rw [chunkList]
          simp [List.take_succ_cons]
  | case5 post i r rest b hpost =>
      intro _ k hk hprev hfail
      cases k with
      | zero =>
          rw [sendBatches]
          simp only [hpost, if_false]
          conv_rhs => rw [chunkList]
          simp [List.take_succ_cons]
      | succ k =>
          have h0 := hprev 0 (by omega)
          rw [Nat.add_zero] at h0
          exact absurd h0 hpost

/-- C8: for an API-destination load (POST), rows are sent in fixed-size
batches of the configured batch size — the chunks concatenate back to the
record list, none exceeds the batch size, and all but possibly the last
have exactly that size; any non-200 response for one batch makes the whole
load call return failure with exactly the batches up to and including the
failing one sent (already-sent batches are not rolled back, and no batch is
sent after the failure); when every response is 200 the call succeeds
having sent every chunk. -/
theorem load_api_batching (bs : Nat) (post : Nat → Nat) (records : List Row)
    (hbs : 0 < bs) :
    (chunkList bs records).flatten = records ∧
    (∀ c ∈ chunkList bs records, 0 < c.length ∧ c.length ≤ bs) ∧
    (∀ c ∈ (chunkList bs records).dropLast, c.length = bs) ∧
    ((∀ j, j < (chunkList bs records).length → post j = 200) →
      loadApi "POST" bs post records = (true, chunkList bs records)) ∧
    (∀ k, k < (chunkList bs records).length →
      (∀ j, j < k → post j = 200) →
      post k ≠ 200 →
      loadApi "POST" bs post records = (false, (chunkList bs records).take (k + 1))) := by
  have hla : loadApi "POST" bs post records = sendBatches bs post 0 records := by
    unfold loadApi
    rw [if_pos (show strUpper "POST" = "POST" by decide)]
  refine ⟨chunkList_flatten bs records hbs, chunkList_mem_size bs records hbs,
          chunkList_dropLast_size bs records hbs, ?_, ?_⟩
  · intro h
    rw [hla]
    exact sendBatches_all_ok bs post 0 records hbs
      (fun j hj => by rw [Nat.zero_add]; exact h j hj)
  · intro k hk hprev hfail
    rw [hla]
    exact sendBatches_fail_at bs post 0 records hbs k hk
      (fun j hj => by rw [Nat.zero_add]; exact hprev j hj)
      (by rw [Nat.zero_add]; exact hfail)

/-- Witness for C8: three rows in batches of two, with the second request
failing — the load fails with both chunks sent and nothing rolled back. -/
theorem load_api_batching_witness :
    (chunkList 2 [[("a", Value.int 1)], [("a", Value.int 2)], [("a", Value.int 3)]]).flatten =
      [[("a", Value.int 1)], [("a", Value.int 2)], [("a", Value.int 3)]] ∧
    loadApi "POST" 2 (fun i => if i = 0 then 200 else 500)
        [[("a", Value.int 1)], [("a", Value.int 2)], [("a", Value.int 3)]] =
      (false,
        (chunkList 2 [[("a", Value.int 1)], [("a", Value.int 2)], [("a", Value.int 3)]]).take 2) :=
  ⟨(load_api_batching 2 (fun i => if i = 0 then 200 else 500)
      [[("a", Value.int 1)], [("a", Value.int 2)], [("a", Value.int 3)]] (by decide)).1,
   (load_api_batching 2 (fun i => if i = 0 then 200 else 500)
      [[("a", Value.int 1)], [("a", Value.int 2)], [("a", Value.int 3)]] (by decide)).2.2.2.2
      1 (by simp [chunkList]) (by decide) (by decide)⟩
